import Mathlib

/-!
Shallow embedding of `src/analyzer/system_analyzer.py` (class `SystemAnalyzer`)
from the `aitop` repository, together with proofs about the analysis engine.

Modelling conventions:
* Python floats are modelled as exact rationals (`ℚ`); the analyzer only does
  field arithmetic and order comparisons on them.
* A Python dict read `d.get(key, 0)` means a missing key behaves exactly like
  the value `0`, so numeric record fields are total here.  The presence checks
  `if 'system' in item and item['system']` are modelled by an `Option` field
  (`none` covers both an absent and an empty/falsy dict), and
  `if 'processes' in item and item['processes']` by a list that may be empty.
* `timestamp` is always present in collected samples (the collector writes it
  unconditionally), so it is a plain field; instants are rationals and
  `timedelta.total_seconds()` is plain subtraction.
* `statistics.stdev` returns the square root of the sample variance; every use
  in the source is an order comparison, so we record the (rational) sample
  variance and phrase each comparison equivalently on squares.
-/

namespace Aitop

/-- The `item['system']` sub-dict of one collected sample: the numeric fields
the analyzer reads (each read with `.get(key, 0)`). -/
structure SystemInfo where
  cpu_percent : ℚ
  memory_percent : ℚ
  memory_used : ℚ
  load_avg : ℚ
deriving DecidableEq

/-- One entry of `item['processes']`: the fields the analyzer reads. -/
structure Process where
  pid : ℕ
  name : String
  cpu_percent : ℚ
  memory_percent : ℚ
deriving DecidableEq

/-- One collected sample (`item` in the source). -/
structure Sample where
  timestamp : ℚ
  system : Option SystemInfo
  processes : List Process
deriving DecidableEq

/-- `statistics.mean` (call sites guarantee a non-empty list). -/
def pymean (l : List ℚ) : ℚ := l.sum / l.length

/-- Python `max` over a list (call sites guarantee non-emptiness; the `0`
default is unreachable there). -/
def pymax : List ℚ → ℚ
  | [] => 0
  | x :: xs => xs.foldl max x

/-- Python `min` over a list (call sites guarantee non-emptiness). -/
def pymin : List ℚ → ℚ
  | [] => 0
  | x :: xs => xs.foldl min x

/-- `statistics.median`: middle element of the sorted list, or the average of
the two middle elements for even length. -/
def pymedian (l : List ℚ) : ℚ :=
  let s := l.mergeSort fun a b => decide (a ≤ b)
  if l.length % 2 = 1 then s.getD (l.length / 2) 0
  else (s.getD (l.length / 2 - 1) 0 + s.getD (l.length / 2) 0) / 2

/-- The square of `statistics.stdev` (sample variance, divisor `N - 1`).
The source always guards `statistics.stdev(l) if len(l) > 1 else 0`; that guard
is folded in here. -/
def sampleVariance (l : List ℚ) : ℚ :=
  if l.length ≤ 1 then 0
  else ((l.map fun x => (x - pymean l) ^ 2).sum) / ((l.length : ℚ) - 1)

/-- `self.cpu_threshold_high`. -/
def cpu_threshold_high : ℚ := 80
/-- `self.cpu_threshold_critical`. -/
def cpu_threshold_critical : ℚ := 95
/-- `self.memory_threshold_high`. -/
def memory_threshold_high : ℚ := 80
/-- `self.memory_threshold_critical`. -/
def memory_threshold_critical : ℚ := 95

/-- The `cpu_values` series: `item['system'].get('cpu_percent', 0)` for every
item whose `system` dict is present and non-empty. -/
def cpuValues (data : List Sample) : List ℚ :=
  data.filterMap fun s => s.system.map (·.cpu_percent)

/-- The `memory_values` series, collected like `cpuValues`. -/
def memoryValues (data : List Sample) : List ℚ :=
  data.filterMap fun s => s.system.map (·.memory_percent)

/-- The `load_values` series, collected like `cpuValues`. -/
def loadValues (data : List Sample) : List ℚ :=
  data.filterMap fun s => s.system.map (·.load_avg)

/-- The timestamped CPU series built in `_detect_anomalies`. -/
def cpuSeries (data : List Sample) : List (ℚ × ℚ) :=
  data.filterMap fun s => s.system.map fun si => (s.timestamp, si.cpu_percent)

/-- The timestamped memory series built in `_detect_anomalies`. -/
def memorySeries (data : List Sample) : List (ℚ × ℚ) :=
  data.filterMap fun s => s.system.map fun si => (s.timestamp, si.memory_percent)

/-- Result dict of `_get_time_range` (`none` models the empty dict; the
`duration_formatted` string rendering of the timedelta is presentation and is
omitted). -/
structure TimeRange where
  start : ℚ
  stop : ℚ
  duration_seconds : ℚ
deriving DecidableEq

/-- `_get_time_range`. -/
def getTimeRange (data : List Sample) : Option TimeRange :=
  let timestamps := data.map (·.timestamp)
  match timestamps with
  | [] => none
  | _ :: _ => some ⟨pymin timestamps, pymax timestamps, pymax timestamps - pymin timestamps⟩

/-- Result dict of `_analyze_system_health` in the non-empty case. -/
structure Health where
  health_score : ℤ
  status : String
  status_color : String
  avg_cpu : ℚ
  avg_memory : ℚ
  max_cpu : ℚ
  max_memory : ℚ
deriving DecidableEq

/-- The average-value deduction pattern of `_analyze_system_health`:
`-30` above the critical threshold, else `-15` above the high threshold. -/
def dedAvg (high crit v : ℚ) : ℤ :=
  if crit < v then 30 else if high < v then 15 else 0

/-- The peak-value deduction of `_analyze_system_health`: `-10` above the
critical threshold. -/
def dedPeak (crit v : ℚ) : ℤ := if crit < v then 10 else 0

/-- `_analyze_system_health`; `none` models the empty dict returned when there
is no data or no system series.  The sequence of `health_score -= …`
statements is written as one subtraction of the four deductions, and the final
`max(0, health_score)` clamp is kept. -/
def analyzeSystemHealth (data : List Sample) : Option Health :=
  if data = [] then none
  else
    let cpu_values := cpuValues data
    let memory_values := memoryValues data
    if cpu_values = [] ∨ memory_values = [] then none
    else
      let avg_cpu := pymean cpu_values
      let avg_memory := pymean memory_values
      let max_cpu := pymax cpu_values
      let max_memory := pymax memory_values
      let health_score : ℤ :=
        max 0 (100 - dedAvg cpu_threshold_high cpu_threshold_critical avg_cpu
                   - dedAvg memory_threshold_high memory_threshold_critical avg_memory
                   - dedPeak cpu_threshold_critical max_cpu
                   - dedPeak memory_threshold_critical max_memory)
      let status := if 80 ≤ health_score then "良好"
                    else if 60 ≤ health_score then "一般" else "需要关注"
      let status_color := if 80 ≤ health_score then "green"
                          else if 60 ≤ health_score then "yellow" else "red"
      some ⟨health_score, status, status_color, avg_cpu, avg_memory, max_cpu, max_memory⟩

/-- One entry of `analysis['spikes']` in `_analyze_cpu_usage`.  The timestamp
is `data[i]['timestamp'] if i < len(data) else None`, with `i` the index into
the *filtered* `cpu_values` series. -/
structure Spike where
  index : ℕ
  value : ℚ
  timestamp : Option ℚ
deriving DecidableEq

/-- Result dict of `_analyze_cpu_usage` in the non-empty case.  The constant
`high_usage_periods: []` key is omitted; `variance` records the square of the
reported `std_deviation` (see the header note on `statistics.stdev`). -/
structure CpuAnalysis where
  average : ℚ
  maximum : ℚ
  minimum : ℚ
  median : ℚ
  variance : ℚ
  load_average : ℚ
  high_usage_percentage : ℚ
  spikes : List Spike
  trend : String
deriving DecidableEq

/-- `_analyze_cpu_usage`; `none` models the empty dict returned when
`cpu_values` is empty. -/
def analyzeCpuUsage (data : List Sample) : Option CpuAnalysis :=
  let cpu_values := cpuValues data
  let load_values := loadValues data
  if cpu_values = [] then none
  else
    some
      { average := pymean cpu_values
        maximum := pymax cpu_values
        minimum := pymin cpu_values
        median := pymedian cpu_values
        variance := sampleVariance cpu_values
        load_average := if load_values = [] then 0 else pymean load_values
        high_usage_percentage :=
          ((cpu_values.countP fun c => decide (cpu_threshold_high < c) : ℕ) : ℚ)
            / cpu_values.length * 100
        spikes := cpu_values.enum.filterMap fun ic =>
          if cpu_threshold_critical < ic.2 then
            some ⟨ic.1, ic.2, (data.get? ic.1).map (·.timestamp)⟩
          else none
        trend :=
          if 5 < cpu_values.length then
            let recent_avg := pymean (cpu_values.drop (cpu_values.length - 5))
            let earlier_avg := pymean (cpu_values.take 5)
            if earlier_avg * (11 / 10) < recent_avg then "increasing"
            else if recent_avg < earlier_avg * (9 / 10) then "decreasing"
            else "stable"
          else "stable" }

/-- One entry of `analysis['memory_leaks']` in `_analyze_memory_usage`. -/
structure LeakFinding where
  severity : String
  description : String
  trend : String
deriving DecidableEq

/-- The window list `[memory_values[i:i+5] for i in range(0, len(memory_values)-4, 5)]`:
the indices are `0, 5, 10, …` strictly below `len - 4`, which yields exactly
`len / 5` (floor) full windows of five consecutive samples, the trailing
remainder of fewer than five being discarded. -/
def leakWindows (l : List ℚ) : List (List ℚ) :=
  (List.range (l.length / 5)).map fun k => (l.drop (5 * k)).take 5

/-- The `increasing_windows` counter of `_analyze_memory_usage`: windows with
at least two samples whose `window[-1] - window[0]` exceeds 5. -/
def increasingWindows (ws : List (List ℚ)) : ℕ :=
  ws.countP fun w => decide (2 ≤ w.length ∧ 5 < w.getLastD 0 - w.headD 0)

/-- The memory-leak heuristic of `_analyze_memory_usage` (lines 207-224): only
for series of strictly more than 10 samples, emit the single warning finding
when `increasing_windows > len(windows) * 0.6`.  (For the window counts that
can arise here, comparing an integer against the Python float product
`len(windows) * 0.6` decides exactly like the rational comparison used
below.) -/
def memoryLeaks (memory_values : List ℚ) : List LeakFinding :=
  if 10 < memory_values.length then
    if ((leakWindows memory_values).length : ℚ) * (6 / 10)
        < (increasingWindows (leakWindows memory_values) : ℚ) then
      [⟨"warning", "检测到可能的内存泄漏模式", "increasing"⟩]
    else []
  else []

/-- Result dict of `_analyze_memory_usage` in the non-empty case.  The constant
`high_usage_periods: []` key and the collected-but-unused `memory_used_values`
series are omitted; `variance` records the square of the reported
`std_deviation`. -/
structure MemoryAnalysis where
  average_percent : ℚ
  maximum_percent : ℚ
  minimum_percent : ℚ
  median_percent : ℚ
  variance : ℚ
  high_usage_percentage : ℚ
  memory_leaks : List LeakFinding
deriving DecidableEq

/-- `_analyze_memory_usage`; `none` models the empty dict returned when
`memory_values` is empty. -/
def analyzeMemoryUsage (data : List Sample) : Option MemoryAnalysis :=
  let memory_values := memoryValues data
  if memory_values = [] then none
  else
    some
      { average_percent := pymean memory_values
        maximum_percent := pymax memory_values
        minimum_percent := pymin memory_values
        median_percent := pymedian memory_values
        variance := sampleVariance memory_values
        high_usage_percentage :=
          ((memory_values.countP fun m => decide (memory_threshold_high < m) : ℕ) : ℚ)
            / memory_values.length * 100
        memory_leaks := memoryLeaks memory_values }

/-- The per-name accumulator dict of `_analyze_processes`. -/
structure ProcInfo where
  instances : List Process
  cpu_usage : List ℚ
  memory_usage : List ℚ
  first_seen : ℚ
  last_seen : ℚ
deriving DecidableEq

/-- One iteration of the accumulation loop in `_analyze_processes`: insert the
name on first sight (Python dicts keep insertion order, modelled by an
association list extended at the end), then append the instance and its
cpu/memory values and refresh `last_seen`. -/
def addProc (t : ℚ) (p : Process) (acc : List (String × ProcInfo)) :
    List (String × ProcInfo) :=
  if acc.any fun e => e.1 = p.name then
    acc.map fun e =>
      if e.1 = p.name then
        (e.1, ⟨e.2.instances ++ [p], e.2.cpu_usage ++ [p.cpu_percent],
               e.2.memory_usage ++ [p.memory_percent], e.2.first_seen, t⟩)
      else e
  else
    acc ++ [(p.name, ⟨[p], [p.cpu_percent], [p.memory_percent], t, t⟩)]

/-- The `all_processes` dict after the accumulation loop of
`_analyze_processes`. -/
def allProcesses (data : List Sample) : List (String × ProcInfo) :=
  data.foldl (fun acc s => s.processes.foldl (fun a p => addProc s.timestamp p a) acc) []

/-- One value of the `process_stats` dict of `_analyze_processes`. -/
structure ProcStats where
  avg_cpu : ℚ
  max_cpu : ℚ
  avg_memory : ℚ
  max_memory : ℚ
  instance_count : ℕ
  duration : ℚ
deriving DecidableEq

/-- The `process_stats` dict of `_analyze_processes` (guarded by
`if info['cpu_usage']`). -/
def processStats (aps : List (String × ProcInfo)) : List (String × ProcStats) :=
  aps.filterMap fun e =>
    if e.2.cpu_usage = [] then none
    else
      some (e.1, ⟨pymean e.2.cpu_usage, pymax e.2.cpu_usage,
                  pymean e.2.memory_usage, pymax e.2.memory_usage,
                  e.2.instances.length, e.2.last_seen - e.2.first_seen⟩)

/-- Result dict of `_analyze_processes`.  Python's stable
`sorted(…, key=…, reverse=True)` is modelled by a stable merge sort under the
reversed comparison, which keeps equal keys in insertion order exactly like
`reverse=True` does. -/
structure ProcessAnalysis where
  total_unique_processes : ℕ
  top_cpu_processes : List (String × ProcStats)
  top_memory_processes : List (String × ProcStats)
  process_stats : List (String × ProcStats)
deriving DecidableEq

/-- `_analyze_processes`. -/
def analyzeProcesses (data : List Sample) : ProcessAnalysis :=
  let aps := allProcesses data
  let stats := processStats aps
  { total_unique_processes := aps.length
    top_cpu_processes :=
      (stats.mergeSort fun a b => decide (b.2.avg_cpu ≤ a.2.avg_cpu)).take 10
    top_memory_processes :=
      (stats.mergeSort fun a b => decide (b.2.avg_memory ≤ a.2.avg_memory)).take 10
    process_stats := stats }

/-- Result dict of `_calculate_trend`: either the `{'trend': 'unknown'}` dict
returned below 5 values, or the full record. -/
inductive TrendCalc
  | unknown
  | result (trend : String) (slope start_value end_value change : ℚ)
deriving DecidableEq

/-- `_calculate_trend`: least-squares slope against the indices `0 … n-1`,
classified as `stable` when `|slope| < 0.1`, else by its sign. -/
def calculateTrend (values : List ℚ) : TrendCalc :=
  if values.length < 5 then .unknown
  else
    let n := values.length
    let xs := (List.range n).map fun i => (i : ℚ)
    let x_mean := xs.sum / n
    let y_mean := values.sum / n
    let numerator := ((xs.zip values).map fun p => (p.1 - x_mean) * (p.2 - y_mean)).sum
    let denominator := (xs.map fun x => (x - x_mean) ^ 2).sum
    let slope := if denominator = 0 then 0 else numerator / denominator
    let trend := if |slope| < 1 / 10 then "stable"
                 else if 0 < slope then "increasing" else "decreasing"
    .result trend slope (values.headD 0) (values.getLastD 0)
      (values.getLastD 0 - values.headD 0)

/-- Result dict of `_analyze_trends`: the `{'error': …}` dict below 5 data
points, or the dict whose `cpu`/`memory` keys are present when the respective
series has at least 5 values. -/
inductive Trends
  | error (msg : String)
  | trends (cpu : Option TrendCalc) (memory : Option TrendCalc)
deriving DecidableEq

/-- `_analyze_trends`.  The series filter `'timestamp' in item and 'system' in
item and item['system']` reduces to the `system` presence check since
`timestamp` is always present (header note). -/
def analyzeTrends (data : List Sample) : Trends :=
  if data.length < 5 then .error "数据点不足，无法分析趋势"
  else
    let cpu_values := cpuValues data
    let memory_values := memoryValues data
    .trends (if 5 ≤ cpu_values.length then some (calculateTrend cpu_values) else none)
            (if 5 ≤ memory_values.length then some (calculateTrend memory_values) else none)

/-- One anomaly dict of `_detect_value_anomalies`.  The threshold entries also
carry `threshold` (the argument) and the statistical entries `mean`/`std_dev`
(the series statistics); those payload echoes are determined by the series and
arguments and are omitted, `std_dev` being a square root. -/
structure Anomaly where
  atype : String
  metric : String
  timestamp : ℚ
  value : ℚ
  severity : String
deriving DecidableEq

/-- The per-sample emission loop of `_detect_value_anomalies` with the series
mean and variance already computed: a `threshold_exceeded`/`high` entry for a
value strictly above the threshold, then a `statistical_anomaly`/`medium`
entry when `std_val > 0 and abs(value - mean_val) > 2 * std_val` — phrased on
squares (`0 < var ∧ 4·var < (value - mean)²`), which is equivalent since both
sides of the original comparison are non-negative and `std_val = √var`. -/
def emitAnomalies (metric_name : String) (threshold mean_val var_val : ℚ) :
    List (ℚ × ℚ) → List Anomaly
  | [] => []
  | tv :: rest =>
    ((if threshold < tv.2 then
      [⟨"threshold_exceeded", metric_name, tv.1, tv.2, "high"⟩] else [])
    ++ (if 0 < var_val ∧ 4 * var_val < (tv.2 - mean_val) ^ 2 then
      [⟨"statistical_anomaly", metric_name, tv.1, tv.2, "medium"⟩] else []))
    ++ emitAnomalies metric_name threshold mean_val var_val rest

/-- `_detect_value_anomalies`. -/
def detectValueAnomalies (values : List (ℚ × ℚ)) (metric_name : String)
    (threshold : ℚ) : List Anomaly :=
  if values.length < 5 then []
  else
    emitAnomalies metric_name threshold (pymean (values.map (·.2)))
      (sampleVariance (values.map (·.2))) values

/-- `_detect_anomalies`: the CPU series' anomalies (only when the series has
strictly more than 5 samples) followed by the memory series' ones (same
guard). -/
def detectAnomalies (data : List Sample) : List Anomaly :=
  (if 5 < (cpuSeries data).length then
    detectValueAnomalies (cpuSeries data) "CPU" cpu_threshold_critical else [])
  ++ (if 5 < (memorySeries data).length then
    detectValueAnomalies (memorySeries data) "内存" memory_threshold_critical else [])

/-- One recommendation dict of `_generate_recommendations`.  The interpolated
`description` text and the `actions` checklist are fixed presentation strings
(the process one embeds the offending names) and are omitted. -/
structure Recommendation where
  rtype : String
  priority : String
  title : String
deriving DecidableEq

/-- `_generate_recommendations`: works on the latest sample only
(`data[-1]`); the CPU block, then the memory block (each an `if/elif` pair on
the critical/high thresholds of the latest values, read with default 0), then
the process block (a medium entry when any of the first five processes of the
latest sample exceeds 50% CPU). -/
def generateRecommendations (data : List Sample) : List Recommendation :=
  match data.getLast? with
  | none => []
  | some latest_data =>
    let cpu_percent := (latest_data.system.map (·.cpu_percent)).getD 0
    let memory_percent := (latest_data.system.map (·.memory_percent)).getD 0
    (if cpu_threshold_critical < cpu_percent then
      [⟨"cpu_high", "high", "CPU使用率过高"⟩]
    else if cpu_threshold_high < cpu_percent then
      [⟨"cpu_medium", "medium", "CPU使用率较高"⟩]
    else [])
    ++ (if memory_threshold_critical < memory_percent then
      [⟨"memory_high", "high", "内存使用率过高"⟩]
    else if memory_threshold_high < memory_percent then
      [⟨"memory_medium", "medium", "内存使用率较高"⟩]
    else [])
    ++ (if latest_data.processes ≠ [] ∧
          (latest_data.processes.take 5).filter (fun p => decide (50 < p.cpu_percent)) ≠ [] then
      [⟨"process_optimization", "medium", "发现高CPU使用率进程"⟩]
    else [])

/-- The `summary` dict of `_generate_summary`.  Each key finding is rendered
by the source as a sentence embedding the average formatted to one decimal; we
keep the `(message, value)` pair, string formatting of the number being
presentation. -/
structure Summary where
  health_status : String
  health_score : ℤ
  key_findings : List (String × ℚ)
  critical_issues : List String
  recommendations_count : ℕ
  anomalies_count : ℕ
deriving DecidableEq

/-- `_generate_summary`, reading the already-computed parts of the analysis
dict (missing keys read with defaults `'unknown'` / `0`). -/
def generateSummary (system_health : Option Health) (cpu_analysis : Option CpuAnalysis)
    (memory_analysis : Option MemoryAnalysis) (anomalies : List Anomaly)
    (recommendations : List Recommendation) : Summary :=
  { health_status := (system_health.map (·.status)).getD "unknown"
    health_score := (system_health.map (·.health_score)).getD 0
    key_findings :=
      (if cpu_threshold_high < (cpu_analysis.map (·.average)).getD 0 then
        [("CPU平均使用率较高", (cpu_analysis.map (·.average)).getD 0)] else [])
      ++ (if memory_threshold_high < (memory_analysis.map (·.average_percent)).getD 0 then
        [("内存平均使用率较高", (memory_analysis.map (·.average_percent)).getD 0)] else [])
    critical_issues :=
      (recommendations.filter fun r => r.priority == "high").map (·.title)
    recommendations_count := recommendations.length
    anomalies_count := anomalies.length }

/-- The full analysis dict assembled by `analyze` for non-empty input. -/
structure Report where
  timestamp : ℚ
  data_points : ℕ
  time_range : Option TimeRange
  system_health : Option Health
  cpu_analysis : Option CpuAnalysis
  memory_analysis : Option MemoryAnalysis
  process_analysis : ProcessAnalysis
  trends : Trends
  anomalies : List Anomaly
  recommendations : List Recommendation
  summary : Summary
deriving DecidableEq

/-- Result of `analyze`: the `{'error': '没有数据可分析'}` dict for empty
input, or the report. -/
inductive AnalyzeResult
  | error (msg : String)
  | report (r : Report)
deriving DecidableEq

/-- `analyze`.  The wall-clock `datetime.now()` read is the only impure step
of the source; it is passed in as the explicit `now` argument. -/
def analyze (now : ℚ) (collected_data : List Sample) : AnalyzeResult :=
  if collected_data = [] then .error "没有数据可分析"
  else
    let sh := analyzeSystemHealth collected_data
    let ca := analyzeCpuUsage collected_data
    let ma := analyzeMemoryUsage collected_data
    let an := detectAnomalies collected_data
    let recs := generateRecommendations collected_data
    .report
      { timestamp := now
        data_points := collected_data.length
        time_range := getTimeRange collected_data
        system_health := sh
        cpu_analysis := ca
        memory_analysis := ma
        process_analysis := analyzeProcesses collected_data
        trends := analyzeTrends collected_data
        anomalies := an
        recommendations := recs
        summary := generateSummary sh ca ma an recs }

/-! ### Helper lemmas -/

lemma cpuValues_nil : cpuValues [] = [] := rfl

lemma dedAvg_nonneg (high crit v : ℚ) : 0 ≤ dedAvg high crit v := by
  unfold dedAvg; split_ifs <;> omega

lemma dedAvg_le_30 (high crit v : ℚ) : dedAvg high crit v ≤ 30 := by
  unfold dedAvg; split_ifs <;> omega

lemma dedPeak_nonneg (crit v : ℚ) : 0 ≤ dedPeak crit v := by
  unfold dedPeak; split_ifs <;> omega

lemma dedPeak_le_10 (crit v : ℚ) : dedPeak crit v ≤ 10 := by
  unfold dedPeak; split_ifs <;> omega

/-! ### C5 : health score formula -/

/-- C5: for every input window with computable CPU and memory series, the
health score equals 100 minus independent additive deductions — 30 if average
CPU > 95 else 15 if average CPU > 80; likewise for average memory; a further
10 if peak CPU > 95 and a further 10 if peak memory > 95 — clamped to
[0, 100]; the status is good (`"良好"`) exactly when the score is ≥ 80, fair
(`"一般"`) exactly when 60 ≤ score < 80, and attention (`"需要关注"`)
otherwise. -/
theorem health_score_spec (data : List Sample)
    (hc : cpuValues data ≠ []) (hm : memoryValues data ≠ []) :
    ∃ h, analyzeSystemHealth data = some h ∧
      h.avg_cpu = pymean (cpuValues data) ∧
      h.avg_memory = pymean (memoryValues data) ∧
      h.max_cpu = pymax (cpuValues data) ∧
      h.max_memory = pymax (memoryValues data) ∧
      h.health_score =
        max 0 (min 100 (100
          - (if 95 < h.avg_cpu then 30 else if 80 < h.avg_cpu then 15 else 0)
          - (if 95 < h.avg_memory then 30 else if 80 < h.avg_memory then 15 else 0)
          - (if 95 < h.max_cpu then 10 else 0)
          - (if 95 < h.max_memory then 10 else 0))) ∧
      0 ≤ h.health_score ∧ h.health_score ≤ 100 ∧
      (h.status = "良好" ↔ 80 ≤ h.health_score) ∧
      (h.status = "一般" ↔ 60 ≤ h.health_score ∧ h.health_score < 80) ∧
      (h.status = "需要关注" ↔ h.health_score < 60) := by
  have hd : data ≠ [] := by
    rintro rfl; exact hc cpuValues_nil
  rw [analyzeSystemHealth, if_neg hd, if_neg (by push_neg; exact ⟨hc, hm⟩)]
  set a := pymean (cpuValues data)
  set b := pymean (memoryValues data)
  set mc := pymax (cpuValues data)
  set mm := pymax (memoryValues data)
  set D : ℤ := dedAvg cpu_threshold_high cpu_threshold_critical a
    + dedAvg memory_threshold_high memory_threshold_critical b
    + dedPeak cpu_threshold_critical mc + dedPeak memory_threshold_critical mm with hD
  have hD0 : 0 ≤ D := by
    have := dedAvg_nonneg cpu_threshold_high cpu_threshold_critical a
    have := dedAvg_nonneg memory_threshold_high memory_threshold_critical b
    have := dedPeak_nonneg cpu_threshold_critical mc
    have := dedPeak_nonneg memory_threshold_critical mm
    omega
  have hscore : max 0 (100 - dedAvg cpu_threshold_high cpu_threshold_critical a
      - dedAvg memory_threshold_high memory_threshold_critical b
      - dedPeak cpu_threshold_critical mc - dedPeak memory_threshold_critical mm)
      = max 0 (100 - D) := by omega
  refine ⟨_, rfl, rfl, rfl, rfl, rfl, ?_, ?_, ?_, ?_, ?_, ?_⟩
  · show max 0 (100 - dedAvg _ _ _ - dedAvg _ _ _ - dedPeak _ _ - dedPeak _ _) = _
    rw [hscore]
    have : min 100 (100 - D) = 100 - D := by omega
    simp only [dedAvg, dedPeak, cpu_threshold_high, cpu_threshold_critical,
      memory_threshold_high, memory_threshold_critical] at hD ⊢
    omega
  · show (0:ℤ) ≤ max 0 _
    omega
  · show max (0:ℤ) (100 - dedAvg _ _ _ - dedAvg _ _ _ - dedPeak _ _ - dedPeak _ _) ≤ 100
    rw [hscore]; omega
  · show (if (80:ℤ) ≤ max 0 _ then "良好" else _) = "良好" ↔ _
    rw [hscore]
    split_ifs with h1 h2 <;>
      simp_all [(by decide : ("一般" : String) ≠ "良好"),
        (by decide : ("需要关注" : String) ≠ "良好")]
  · show (if (80:ℤ) ≤ max 0 _ then "良好" else _) = "一般" ↔ _
    rw [hscore]
    split_ifs with h1 h2 <;>
      simp_all [(by decide : ("良好" : String) ≠ "一般"),
        (by decide : ("需要关注" : String) ≠ "一般")] <;> try omega
  · show (if (80:ℤ) ≤ max 0 _ then "良好" else _) = "需要关注" ↔ _
    rw [hscore]
    split_ifs with h1 h2 <;>
      simp_all [(by decide : ("良好" : String) ≠ "需要关注"),
        (by decide : ("一般" : String) ≠ "需要关注")] <;> try omega

/-- A one-sample window with average and peak CPU both 97 and memory at 50. -/
def highCpuData : List Sample := [⟨0, some ⟨97, 50, 0, 0⟩, []⟩]

/-- C5 witness: on `highCpuData` the CPU deductions stack (30 for the average
above 95 plus 10 for the peak above 95), giving score 60 and status fair. -/
theorem health_score_spec_witness :
    ∃ h, analyzeSystemHealth highCpuData = some h ∧
      h.health_score = 60 ∧ h.status = "一般" := by
  have e1 : pymean (cpuValues highCpuData) = 97 := by
    norm_num [highCpuData, cpuValues, pymean, List.filterMap_cons]
  have e2 : pymean (memoryValues highCpuData) = 50 := by
    norm_num [highCpuData, memoryValues, pymean, List.filterMap_cons]
  have e3 : pymax (cpuValues highCpuData) = 97 := by
    norm_num [highCpuData, cpuValues, pymax, List.filterMap_cons]
  have e4 : pymax (memoryValues highCpuData) = 50 := by
    norm_num [highCpuData, memoryValues, pymax, List.filterMap_cons]
  obtain ⟨h, hEq, hac, ham, hmc, hmm, hsc, -, -, -, hfair, -⟩ :=
    health_score_spec highCpuData (by simp [highCpuData, cpuValues])
      (by simp [highCpuData, memoryValues])
  rw [hac, e1] at hsc hac
  rw [ham, e2] at hsc ham
  rw [hmc, e3] at hsc hmc
  rw [hmm, e4] at hsc hmm
  have hs : h.health_score = 60 := by rw [hsc]; norm_num
  exact ⟨h, hEq, hs, hfair.mpr (by rw [hs]; norm_num)⟩

/-! ### C9 : health-score monotonicity -/

/-- Raise every CPU and memory percentage of a sample by `c` (samples without
a system dict have no such values and are unchanged). -/
def bumpSample (c : ℚ) (s : Sample) : Sample :=
  { s with system := s.system.map fun si =>
      { si with cpu_percent := si.cpu_percent + c,
                memory_percent := si.memory_percent + c } }

lemma cpuValues_bump (c : ℚ) (data : List Sample) :
    cpuValues (data.map (bumpSample c)) = (cpuValues data).map (· + c) := by
  induction data with
  | nil => rfl
  | cons s rest ih =>
    cases h : s.system <;>
      simp [cpuValues, bumpSample, List.filterMap_cons, h] <;>
      simpa [cpuValues] using ih

lemma memoryValues_bump (c : ℚ) (data : List Sample) :
    memoryValues (data.map (bumpSample c)) = (memoryValues data).map (· + c) := by
  induction data with
  | nil => rfl
  | cons s rest ih =>
    cases h : s.system <;>
      simp [memoryValues, bumpSample, List.filterMap_cons, h] <;>
      simpa [memoryValues] using ih

lemma pymean_map_add (c : ℚ) (l : List ℚ) (hl : l ≠ []) :
    pymean (l.map (· + c)) = pymean l + c := by
  have hlen : (l.length : ℚ) ≠ 0 := by
    simpa using fun h => hl (List.length_eq_zero.mp h)
  have hsum : (l.map (· + c)).sum = l.sum + l.length * c := by
    induction l with
    | nil => simp
    | cons x xs ih => simp [ih]; ring
  rw [pymean, pymean, hsum, List.length_map]
  field_simp
  ring

lemma foldl_max_add (c a : ℚ) (l : List ℚ) :
    (l.map (· + c)).foldl max (a + c) = l.foldl max a + c := by
  induction l generalizing a with
  | nil => rfl
  | cons x xs ih => simpa [max_add_add_right] using ih (max a x)

lemma pymax_map_add (c : ℚ) (l : List ℚ) (hl : l ≠ []) :
    pymax (l.map (· + c)) = pymax l + c := by
  cases l with
  | nil => exact absurd rfl hl
  | cons x xs => simpa [pymax] using foldl_max_add c x xs

lemma dedAvg_mono (high crit : ℚ) {a b : ℚ} (h : a ≤ b) :
    dedAvg high crit a ≤ dedAvg high crit b := by
  unfold dedAvg
  split_ifs <;> first | omega | linarith

lemma dedPeak_mono (crit : ℚ) {a b : ℚ} (h : a ≤ b) :
    dedPeak crit a ≤ dedPeak crit b := by
  unfold dedPeak
  split_ifs <;> first | omega | linarith

/-- C9: raising every CPU and memory percentage of every sample by a
non-negative constant never increases the health score. -/
theorem health_score_monotone (data : List Sample) (c : ℚ) (hc : 0 ≤ c)
    {r1 r2 : Health} (h1 : analyzeSystemHealth data = some r1)
    (h2 : analyzeSystemHealth (data.map (bumpSample c)) = some r2) :
    r2.health_score ≤ r1.health_score := by
  have hd : data ≠ [] := by rintro rfl; simp [analyzeSystemHealth] at h1
  have hcv : cpuValues data ≠ [] := by
    intro h
    rw [analyzeSystemHealth, if_neg hd, if_pos (Or.inl h)] at h1
    exact Option.noConfusion h1
  have hmv : memoryValues data ≠ [] := by
    intro h
    rw [analyzeSystemHealth, if_neg hd, if_pos (Or.inr h)] at h1
    exact Option.noConfusion h1
  have hd' : data.map (bumpSample c) ≠ [] := by
    simpa using hd
  have ecv := cpuValues_bump c data
  have emv := memoryValues_bump c data
  have hcv' : cpuValues (data.map (bumpSample c)) ≠ [] := by
    rw [ecv]; simpa using hcv
  have hmv' : memoryValues (data.map (bumpSample c)) ≠ [] := by
    rw [emv]; simpa using hmv
  rw [analyzeSystemHealth, if_neg hd, if_neg (by push_neg; exact ⟨hcv, hmv⟩)] at h1
  rw [analyzeSystemHealth, if_neg hd', if_neg (by push_neg; exact ⟨hcv', hmv'⟩),
    ecv, emv, pymean_map_add c _ hcv, pymean_map_add c _ hmv,
    pymax_map_add c _ hcv, pymax_map_add c _ hmv] at h2
  injection h1 with h1
  injection h2 with h2
  subst h1; subst h2
  have m1 := dedAvg_mono cpu_threshold_high cpu_threshold_critical
    (le_add_of_nonneg_right hc (a := pymean (cpuValues data)))
  have m2 := dedAvg_mono memory_threshold_high memory_threshold_critical
    (le_add_of_nonneg_right hc (a := pymean (memoryValues data)))
  have m3 := dedPeak_mono cpu_threshold_critical
    (le_add_of_nonneg_right hc (a := pymax (cpuValues data)))
  have m4 := dedPeak_mono memory_threshold_critical
    (le_add_of_nonneg_right hc (a := pymax (memoryValues data)))
  dsimp only
  omega

/-- A one-sample window with CPU 85 and memory 20. -/
def midCpuData : List Sample := [⟨0, some ⟨85, 20, 0, 0⟩, []⟩]

/-- C9 witness: bumping `midCpuData` (score 85) by 15 pushes the CPU past both
thresholds and the score drops to 60. -/
theorem health_score_monotone_witness :
    (Health.mk 60 "一般" "yellow" 100 35 100 35).health_score ≤
      (Health.mk 85 "良好" "green" 85 20 85 20).health_score := by
  refine health_score_monotone midCpuData 15 (by norm_num) ?_ ?_
  · norm_num [analyzeSystemHealth, midCpuData, cpuValues, memoryValues,
      List.filterMap_cons, pymean, pymax, dedAvg, dedPeak, cpu_threshold_high,
      cpu_threshold_critical, memory_threshold_high, memory_threshold_critical]
  · norm_num [analyzeSystemHealth, midCpuData, bumpSample, cpuValues, memoryValues,
      List.filterMap_cons, pymean, pymax, dedAvg, dedPeak, cpu_threshold_high,
      cpu_threshold_critical, memory_threshold_high, memory_threshold_critical]

/-! ### C1 : memory-leak heuristic -/

lemma leakWindows_length (l : List ℚ) : (leakWindows l).length = l.length / 5 := by
  simp [leakWindows]

lemma leakWindows_mem_length (l : List ℚ) {w : List ℚ} (hw : w ∈ leakWindows l) :
    w.length = 5 := by
  simp only [leakWindows, List.mem_map, List.mem_range] at hw
  obtain ⟨k, hk, rfl⟩ := hw
  have h5 : 5 * k + 5 ≤ l.length := by
    have h1 : 5 * (k + 1) ≤ 5 * (l.length / 5) := Nat.mul_le_mul_left 5 hk
    have h2 : 5 * (l.length / 5) ≤ l.length := Nat.mul_div_le l.length 5
    omega
  simp only [List.length_take, List.length_drop]
  omega

lemma leakWindows_join (l : List ℚ) :
    (leakWindows l).join = l.take (5 * (l.length / 5)) := by
  suffices h : ∀ m, ((List.range m).map fun k => (l.drop (5 * k)).take 5).join
      = l.take (5 * m) ∨ l.length / 5 < m by
    rcases h (l.length / 5) with h' | h'
    · exact h'
    · omega
  intro m
  induction m with
  | zero => left; simp
  | succ n ih =>
    rcases ih with ih | ih
    · by_cases hn : l.length / 5 < n + 1
      · right; exact hn
      · left
        rw [List.range_succ, List.map_append]
        have e : 5 * (n + 1) = 5 * n + 5 := by ring
        rw [e, List.take_add, ← ih]
        simp
    · right; omega

lemma increasingWindows_leakWindows (l : List ℚ) :
    increasingWindows (leakWindows l) =
      (leakWindows l).countP fun w => decide ((5:ℚ) < w.getLastD 0 - w.headD 0) := by
  unfold increasingWindows
  apply List.countP_congr
  intro w hw
  have hlen := leakWindows_mem_length l hw
  simp [hlen]

lemma leak_ratio_iff (W g : ℕ) :
    ((W : ℚ) * (6 / 10) < (g : ℚ)) ↔ 6 * W < 10 * g := by
  constructor <;> intro h
  · by_contra hn
    push_neg at hn
    have hq : (10 : ℚ) * g ≤ 6 * W := by exact_mod_cast hn
    linarith
  · have hq : (6 : ℚ) * W < 10 * g := by exact_mod_cast h
    linarith

/-- C1 (amended): the leak heuristic partitions the memory series into
consecutive, non-overlapping windows of 5 samples (trailing remainder
discarded — witnessed by the first two conjuncts), but it only applies to
series of *strictly more than* 10 samples (at most 10 samples emit nothing);
for those, exactly one warning finding is emitted if and only if windows whose
last value exceeds their first by more than 5 points make up strictly more
than 60% of all windows. -/
theorem leak_heuristic_spec (l : List ℚ) :
    (∀ w ∈ leakWindows l, w.length = 5) ∧
    (leakWindows l).join = l.take (5 * (l.length / 5)) ∧
    (l.length ≤ 10 → memoryLeaks l = []) ∧
    (10 < l.length →
      (memoryLeaks l = [⟨"warning", "检测到可能的内存泄漏模式", "increasing"⟩] ↔
        6 * (leakWindows l).length <
          10 * (leakWindows l).countP fun w => decide ((5:ℚ) < w.getLastD 0 - w.headD 0)) ∧
      (memoryLeaks l = [] ↔
        ¬ 6 * (leakWindows l).length <
          10 * (leakWindows l).countP fun w => decide ((5:ℚ) < w.getLastD 0 - w.headD 0))) := by
  refine ⟨fun w => leakWindows_mem_length l, leakWindows_join l, ?_, ?_⟩
  · intro hle
    rw [memoryLeaks, if_neg (by omega)]
  · intro hgt
    rw [memoryLeaks, if_pos hgt, increasingWindows_leakWindows]
    by_cases hcond : 6 * (leakWindows l).length <
        10 * (leakWindows l).countP fun w => decide ((5:ℚ) < w.getLastD 0 - w.headD 0)
    · rw [if_pos ((leak_ratio_iff _ _).mpr hcond)]
      exact ⟨⟨fun _ => hcond, fun _ => rfl⟩,
        ⟨fun h => List.noConfusion h, fun hn => (hn hcond).elim⟩⟩
    · rw [if_neg (fun hq => hcond ((leak_ratio_iff _ _).mp hq))]
      exact ⟨⟨fun h => List.noConfusion h, fun h => (hcond h).elim⟩,
        ⟨fun _ => hcond, fun _ => rfl⟩⟩

/-- The spec's 10-sample leak example series. -/
def leakSeries10 : List ℚ := [50, 52, 54, 56, 58, 70, 72, 74, 76, 78]

/-- C1 counterexample: on the spec's 10-sample example both windows grow by
more than 5 points (so the claimed ">60% growing" condition holds, 2 of 2),
yet the source emits no finding, because its guard is `len(memory_values) > 10`
— the claimed "at least 10 samples" is off by one. -/
theorem leak_heuristic_counterexample :
    leakSeries10.length = 10 ∧
    (leakWindows leakSeries10).length = 2 ∧
    increasingWindows (leakWindows leakSeries10) = 2 ∧
    memoryLeaks leakSeries10 = [] := by
  refine ⟨by norm_num [leakSeries10], ?_, ?_, ?_⟩
  · norm_num [leakWindows, leakSeries10]
  · norm_num [increasingWindows, leakWindows, leakSeries10, List.range_succ]
  · norm_num [memoryLeaks, leakSeries10]

/-- The 10-sample example extended by one more growing sample. -/
def leakSeries11 : List ℚ := [50, 52, 54, 56, 58, 70, 72, 74, 76, 78, 80]

/-- C1 witness: with 11 samples (strictly more than 10) and both windows
growing, the single warning finding is emitted. -/
theorem leak_heuristic_spec_witness :
    memoryLeaks leakSeries11 = [⟨"warning", "检测到可能的内存泄漏模式", "increasing"⟩] := by
  refine ((leak_heuristic_spec leakSeries11).2.2.2 (by norm_num [leakSeries11])).1.mpr ?_
  norm_num [leakWindows, leakSeries11, List.range_succ, List.countP_cons]

/-! ### C2 : anomaly-detection minimum-sample floor -/

/-- C2 (amended): the value-level detector returns an empty list (not an
error) for a series of fewer than 5 samples, but the analyzer invokes it only
for metric series of *strictly more than* 5 samples, so a series of exactly 5
samples contributes no anomalies either; the overall analysis still returns a
report. -/
theorem anomaly_min_samples (data : List Sample) (values : List (ℚ × ℚ))
    (metric : String) (threshold : ℚ) (now : ℚ)
    (hv : values.length < 5)
    (hc5 : (cpuSeries data).length ≤ 5) (hm5 : (memorySeries data).length ≤ 5)
    (hne : data ≠ []) :
    detectValueAnomalies values metric threshold = [] ∧
    detectAnomalies data = [] ∧
    ∃ r, analyze now data = .report r ∧ r.anomalies = [] := by
  have h1 : detectValueAnomalies values metric threshold = [] := by
    rw [detectValueAnomalies, if_pos hv]
  have h2 : detectAnomalies data = [] := by
    rw [detectAnomalies, if_neg (by omega), if_neg (by omega)]
    rfl
  refine ⟨h1, h2, ?_⟩
  rw [analyze, if_neg hne]
  exact ⟨_, rfl, h2⟩

/-- Five samples whose CPU value (99) exceeds the critical threshold. -/
def fiveHotSamples : List Sample :=
  [⟨0, some ⟨99, 10, 0, 0⟩, []⟩, ⟨1, some ⟨99, 10, 0, 0⟩, []⟩,
   ⟨2, some ⟨99, 10, 0, 0⟩, []⟩, ⟨3, some ⟨99, 10, 0, 0⟩, []⟩,
   ⟨4, some ⟨99, 10, 0, 0⟩, []⟩]

/-- C2 counterexample: a CPU series of exactly 5 samples, all above the
critical threshold.  The value-level detector applied to that series does
produce anomaly entries, but `_detect_anomalies` only runs it for strictly
more than 5 samples, so the analysis emits no anomaly — refuting "for every
metric series with at least 5 samples, anomaly detection is performed". -/
theorem anomaly_min_samples_counterexample :
    (cpuSeries fiveHotSamples).length = 5 ∧
    detectValueAnomalies (cpuSeries fiveHotSamples) "CPU" cpu_threshold_critical ≠ [] ∧
    detectAnomalies fiveHotSamples = [] := by
  refine ⟨by norm_num [cpuSeries, fiveHotSamples, List.filterMap_cons], ?_, ?_⟩
  · intro h
    norm_num [detectValueAnomalies, emitAnomalies, cpuSeries, fiveHotSamples,
      List.filterMap_cons, pymean, sampleVariance, cpu_threshold_critical] at h
    exact List.noConfusion h
  · norm_num [detectAnomalies, cpuSeries, memorySeries, fiveHotSamples,
      List.filterMap_cons]

/-- C2 witness: a 1-sample series for the value-level floor together with the
5-sample data for the pipeline part. -/
theorem anomaly_min_samples_witness :
    detectValueAnomalies [((0:ℚ), (1:ℚ))] "CPU" 95 = [] ∧
    detectAnomalies fiveHotSamples = [] ∧
    ∃ r, analyze 0 fiveHotSamples = .report r ∧ r.anomalies = [] := by
  exact anomaly_min_samples fiveHotSamples [(0, 1)] "CPU" 95 0 (by norm_num)
    (by norm_num [cpuSeries, fiveHotSamples, List.filterMap_cons])
    (by norm_num [memorySeries, fiveHotSamples, List.filterMap_cons])
    (by simp [fiveHotSamples])

/-! ### C3 : trend minimum-sample floor -/

/-- C3 (amended): with fewer than 5 data points `_analyze_trends` returns the
insufficient-data error dict — a normal return value, no exception, and the
overall analysis still assembles a report carrying it — and `_calculate_trend`
on fewer than 5 values returns the bare `{'trend': 'unknown'}` dict (not
`direction=stable` with slope zero). -/
theorem trend_min_samples (data : List Sample) (l : List ℚ) (now : ℚ)
    (hd : data.length < 5) (hl : l.length < 5) (hne : data ≠ []) :
    analyzeTrends data = .error "数据点不足，无法分析趋势" ∧
    calculateTrend l = .unknown ∧
    ∃ r, analyze now data = .report r ∧
      r.trends = .error "数据点不足，无法分析趋势" := by
  have h1 : analyzeTrends data = .error "数据点不足，无法分析趋势" := by
    rw [analyzeTrends, if_pos hd]
  have h2 : calculateTrend l = .unknown := by
    rw [calculateTrend, if_pos hl]
  refine ⟨h1, h2, ?_⟩
  rw [analyze, if_neg hne]
  exact ⟨_, rfl, h1⟩

/-- Three samples with strictly increasing CPU and memory. -/
def threeSamples : List Sample :=
  [⟨0, some ⟨10, 20, 0, 0⟩, []⟩, ⟨1, some ⟨20, 30, 0, 0⟩, []⟩,
   ⟨2, some ⟨30, 40, 0, 0⟩, []⟩]

/-- C3 counterexample: below the 5-value floor the code does not return
`direction=stable` with slope zero: `_calculate_trend` yields the
`{'trend': 'unknown'}` dict and `_analyze_trends` yields the error dict. -/
theorem trend_min_samples_counterexample :
    calculateTrend [10, 20, 30] = .unknown ∧
    analyzeTrends threeSamples = .error "数据点不足，无法分析趋势" := by
  constructor
  · rw [calculateTrend, if_pos (by norm_num)]
  · rw [analyzeTrends, if_pos (by norm_num [threeSamples])]

/-- C3 witness: the floor applied to `threeSamples` and a 3-value series. -/
theorem trend_min_samples_witness :
    analyzeTrends threeSamples = .error "数据点不足，无法分析趋势" ∧
    calculateTrend [10, 20, 30] = .unknown ∧
    ∃ r, analyze 0 threeSamples = .report r ∧
      r.trends = .error "数据点不足，无法分析趋势" := by
  exact trend_min_samples threeSamples [10, 20, 30] 0
    (by norm_num [threeSamples]) (by norm_num) (by simp [threeSamples])

/-! ### C4, C6, C10 : recommendations -/

/-- Whether a recommendation belongs to the CPU dimension. -/
def isCpuRec (r : Recommendation) : Bool :=
  r.rtype == "cpu_high" || r.rtype == "cpu_medium"

/-- Whether a recommendation belongs to the memory dimension. -/
def isMemRec (r : Recommendation) : Bool :=
  r.rtype == "memory_high" || r.rtype == "memory_medium"

/-- Whether a recommendation belongs to the process dimension. -/
def isProcRec (r : Recommendation) : Bool :=
  r.rtype == "process_optimization"

/-- C4 (amended): the recommendation list depends on the latest sample only,
and is emitted in fixed dimension order — the CPU block, then the memory
block, then the process block, each contributing at most one entry whose
priority is tied to its tier — rather than being globally sorted by priority
(high before medium fails; see the counterexample). -/
theorem recommendations_structure (d1 d2 : List Sample)
    (h : d1.getLast? = d2.getLast?) :
    generateRecommendations d1 = generateRecommendations d2 ∧
    ∃ c m p, generateRecommendations d1 = c ++ m ++ p ∧
      c.length ≤ 1 ∧ m.length ≤ 1 ∧ p.length ≤ 1 ∧
      (∀ r ∈ c, r.rtype = "cpu_high" ∧ r.priority = "high" ∨
        r.rtype = "cpu_medium" ∧ r.priority = "medium") ∧
      (∀ r ∈ m, r.rtype = "memory_high" ∧ r.priority = "high" ∨
        r.rtype = "memory_medium" ∧ r.priority = "medium") ∧
      (∀ r ∈ p, r.rtype = "process_optimization" ∧ r.priority = "medium") := by
  constructor
  · rw [generateRecommendations, generateRecommendations, h]
  · cases hL : d1.getLast? with
    | none =>
      refine ⟨[], [], [], ?_, by simp, by simp, by simp, by simp, by simp, by simp⟩
      rw [generateRecommendations, hL]
      rfl
    | some s =>
      refine ⟨(if cpu_threshold_critical < (s.system.map (·.cpu_percent)).getD 0 then
          [⟨"cpu_high", "high", "CPU使用率过高"⟩]
        else if cpu_threshold_high < (s.system.map (·.cpu_percent)).getD 0 then
          [⟨"cpu_medium", "medium", "CPU使用率较高"⟩]
        else []),
        (if memory_threshold_critical < (s.system.map (·.memory_percent)).getD 0 then
          [⟨"memory_high", "high", "内存使用率过高"⟩]
        else if memory_threshold_high < (s.system.map (·.memory_percent)).getD 0 then
          [⟨"memory_medium", "medium", "内存使用率较高"⟩]
        else []),
        (if s.processes ≠ [] ∧
            (s.processes.take 5).filter (fun p => decide (50 < p.cpu_percent)) ≠ [] then
          [⟨"process_optimization", "medium", "发现高CPU使用率进程"⟩]
        else []), ?_, ?_, ?_, ?_, ?_, ?_, ?_⟩
      · rw [generateRecommendations, hL]
      · split_ifs <;> simp
      · split_ifs <;> simp
      · split_ifs <;> simp
      · split_ifs <;> simp
      · split_ifs <;> simp
      · split_ifs <;> simp

/-- A single sample with CPU 85 (medium tier) and memory 96 (high tier). -/
def mixedLoadData : List Sample := [⟨0, some ⟨85, 96, 0, 0⟩, []⟩]

/-- C4 counterexample: with the latest CPU at 85 and memory at 96 the list is
`[cpu_medium, memory_high]` — a medium-priority recommendation precedes a
high-priority one, refuting "every high-priority recommendation appears
before every medium-priority one". -/
theorem recommendations_order_counterexample :
    (generateRecommendations mixedLoadData).map (·.priority) = ["medium", "high"] := by
  norm_num [generateRecommendations, mixedLoadData, cpu_threshold_critical,
    cpu_threshold_high, memory_threshold_critical, memory_threshold_high]

/-- `mixedLoadData` preceded by an idle sample: same latest sample. -/
def mixedLoadData2 : List Sample :=
  [⟨5, some ⟨10, 10, 0, 0⟩, []⟩, ⟨0, some ⟨85, 96, 0, 0⟩, []⟩]

/-- C4 witness: two windows sharing the latest sample get the same
recommendations. -/
theorem recommendations_structure_witness :
    generateRecommendations mixedLoadData2 = generateRecommendations mixedLoadData := by
  exact (recommendations_structure mixedLoadData2 mixedLoadData
    (by simp [mixedLoadData2, mixedLoadData])).1

/-- C6: the CPU/memory recommendations compare the latest sample's values
strictly against 80/95: exactly 80.0 triggers no CPU recommendation, a value
strictly above 80 and at most 95 triggers exactly the medium-priority CPU
entry, and a latest sample with `cpu_percent = 96` and `memory_percent = 40`
yields exactly the one high-priority CPU entry and no memory entry. -/
theorem recommendation_thresholds (data : List Sample) (s : Sample)
    (si : SystemInfo) (hlast : data.getLast? = some s) (hsys : s.system = some si) :
    (si.cpu_percent = 80 → (generateRecommendations data).filter isCpuRec = []) ∧
    (80 < si.cpu_percent → si.cpu_percent ≤ 95 →
      (generateRecommendations data).filter isCpuRec
        = [⟨"cpu_medium", "medium", "CPU使用率较高"⟩]) ∧
    (si.cpu_percent = 96 → si.memory_percent = 40 →
      (generateRecommendations data).filter isCpuRec
          = [⟨"cpu_high", "high", "CPU使用率过高"⟩] ∧
      (generateRecommendations data).filter isMemRec = []) := by
  rw [generateRecommendations, hlast]
  simp only [hsys, Option.map_some', Option.getD_some, cpu_threshold_critical,
    cpu_threshold_high, memory_threshold_critical, memory_threshold_high]
  refine ⟨?_, ?_, ?_⟩
  · intro h80
    rw [h80, if_neg (by norm_num), if_neg (by norm_num)]
    split_ifs <;> simp [isCpuRec]
  · intro hgt hle
    rw [if_neg (not_lt.mpr hle), if_pos hgt]
    split_ifs <;> simp [isCpuRec]
  · intro h96 h40
    rw [h96, h40, if_pos (by norm_num), if_neg (by norm_num), if_neg (by norm_num)]
    refine ⟨?_, ?_⟩ <;> (split_ifs <;> simp [isCpuRec, isMemRec])

/-- A single sample with CPU 96 and memory 40. -/
def hotCpuData : List Sample := [⟨0, some ⟨96, 40, 0, 0⟩, []⟩]

/-- C6 witness: `hotCpuData` yields exactly one high-priority CPU
recommendation and no memory recommendation. -/
theorem recommendation_thresholds_witness :
    (generateRecommendations hotCpuData).filter isCpuRec
        = [⟨"cpu_high", "high", "CPU使用率过高"⟩] ∧
    (generateRecommendations hotCpuData).filter isMemRec = [] := by
  exact (recommendation_thresholds hotCpuData ⟨0, some ⟨96, 40, 0, 0⟩, []⟩
    ⟨96, 40, 0, 0⟩ (by simp [hotCpuData]) rfl).2.2 rfl rfl

/-- C10: for every input the recommendation list has at most three entries —
at most one CPU entry (the two tiers are mutually exclusive branches), at most
one memory entry, and at most one process entry. -/
theorem recommendations_at_most_one_per_dimension (data : List Sample) :
    (generateRecommendations data).length ≤ 3 ∧
    (generateRecommendations data).countP isCpuRec ≤ 1 ∧
    (generateRecommendations data).countP isMemRec ≤ 1 ∧
    (generateRecommendations data).countP isProcRec ≤ 1 := by
  rw [generateRecommendations]
  cases hL : data.getLast? with
  | none => simp
  | some s =>
    simp only []
    split_ifs <;> simp [isCpuRec, isMemRec, isProcRec]

/-! ### C7 : anomaly emission rules -/

lemma emitAnomalies_count_threshold (metric : String) (threshold mean var : ℚ)
    (values : List (ℚ × ℚ)) :
    (emitAnomalies metric threshold mean var values).countP
        (fun a => a.atype == "threshold_exceeded")
      = values.countP (fun tv => decide (threshold < tv.2)) := by
  induction values with
  | nil => rfl
  | cons tv rest ih =>
    rw [emitAnomalies, List.countP_append, List.countP_append, ih, List.countP_cons]
    by_cases h1 : threshold < tv.2 <;>
      by_cases h2 : 0 < var ∧ 4 * var < (tv.2 - mean) ^ 2 <;>
      simp [h1, h2] <;> omega

lemma emitAnomalies_count_statistical (metric : String) (threshold mean var : ℚ)
    (values : List (ℚ × ℚ)) :
    (emitAnomalies metric threshold mean var values).countP
        (fun a => a.atype == "statistical_anomaly")
      = values.countP (fun tv =>
          decide (0 < var ∧ 4 * var < (tv.2 - mean) ^ 2)) := by
  induction values with
  | nil => rfl
  | cons tv rest ih =>
    rw [emitAnomalies, List.countP_append, List.countP_append, ih, List.countP_cons]
    by_cases h1 : threshold < tv.2 <;>
      by_cases h2 : 0 < var ∧ 4 * var < (tv.2 - mean) ^ 2 <;>
      simp [h1, h2] <;> omega

lemma emitAnomalies_severity (metric : String) (threshold mean var : ℚ)
    (values : List (ℚ × ℚ)) :
    ∀ a ∈ emitAnomalies metric threshold mean var values,
      (a.atype = "threshold_exceeded" → a.severity = "high") ∧
      (a.atype = "statistical_anomaly" → a.severity = "medium") := by
  induction values with
  | nil => intro a ha; cases ha
  | cons tv rest ih =>
    intro a ha
    rw [emitAnomalies] at ha
    rcases List.mem_append.mp ha with h | h
    · rcases List.mem_append.mp h with h' | h'
      · split_ifs at h'
        · simp only [List.mem_singleton] at h'
          subst h'
          exact ⟨fun _ => rfl, fun hc => absurd hc (by simp)⟩
        · cases h'
      · split_ifs at h'
        · simp only [List.mem_singleton] at h'
          subst h'
          exact ⟨fun hc => absurd hc (by simp), fun _ => rfl⟩
        · cases h'
    · exact ih a h

lemma emitAnomalies_mem_both (metric : String) (threshold mean var : ℚ)
    (values : List (ℚ × ℚ)) {tv : ℚ × ℚ} (htv : tv ∈ values)
    (h1 : threshold < tv.2) (h2 : 0 < var) (h3 : 4 * var < (tv.2 - mean) ^ 2) :
    (⟨"threshold_exceeded", metric, tv.1, tv.2, "high"⟩ : Anomaly)
        ∈ emitAnomalies metric threshold mean var values ∧
    (⟨"statistical_anomaly", metric, tv.1, tv.2, "medium"⟩ : Anomaly)
        ∈ emitAnomalies metric threshold mean var values := by
  induction values with
  | nil => cases htv
  | cons hd rest ih =>
    rw [emitAnomalies]
    rcases List.mem_cons.mp htv with rfl | hmem
    · rw [if_pos h1, if_pos ⟨h2, h3⟩]
      exact ⟨List.mem_append_left _ (by simp), List.mem_append_left _ (by simp)⟩
    · rcases ih hmem with ⟨m1, m2⟩
      exact ⟨List.mem_append_right _ m1, List.mem_append_right _ m2⟩

/-- C7: for a metric series long enough to be analyzed, the detector emits a
`threshold_exceeded` anomaly of severity `high` exactly once per sample value
strictly above the critical threshold, and a statistical-deviation anomaly
(dict tag `statistical_anomaly` in the source) of severity `medium` exactly
for the samples whose squared deviation from the whole-series mean exceeds
four times the whole-series sample variance — i.e. whose absolute deviation
exceeds twice the sample standard deviation; a sample meeting both conditions
yields both entries, not a merged one. -/
theorem anomaly_emission_rules (values : List (ℚ × ℚ)) (metric : String)
    (threshold : ℚ) (h5 : 5 ≤ values.length) :
    ((detectValueAnomalies values metric threshold).countP
        (fun a => a.atype == "threshold_exceeded"))
      = values.countP (fun tv => decide (threshold < tv.2)) ∧
    ((detectValueAnomalies values metric threshold).countP
        (fun a => a.atype == "statistical_anomaly"))
      = values.countP (fun tv =>
          decide (0 < sampleVariance (values.map (·.2)) ∧
            4 * sampleVariance (values.map (·.2)) <
              (tv.2 - pymean (values.map (·.2))) ^ 2)) ∧
    (∀ a ∈ detectValueAnomalies values metric threshold,
      (a.atype = "threshold_exceeded" → a.severity = "high") ∧
      (a.atype = "statistical_anomaly" → a.severity = "medium")) ∧
    (∀ tv ∈ values, threshold < tv.2 →
      0 < sampleVariance (values.map (·.2)) →
      4 * sampleVariance (values.map (·.2)) < (tv.2 - pymean (values.map (·.2))) ^ 2 →
      (⟨"threshold_exceeded", metric, tv.1, tv.2, "high"⟩ : Anomaly)
          ∈ detectValueAnomalies values metric threshold ∧
      (⟨"statistical_anomaly", metric, tv.1, tv.2, "medium"⟩ : Anomaly)
          ∈ detectValueAnomalies values metric threshold) := by
  rw [detectValueAnomalies, if_neg (by omega)]
  exact ⟨emitAnomalies_count_threshold _ _ _ _ _,
    emitAnomalies_count_statistical _ _ _ _ _,
    emitAnomalies_severity _ _ _ _ _,
    fun tv htv h1 h2 h3 => emitAnomalies_mem_both _ _ _ _ _ htv h1 h2 h3⟩

/-- A 6-sample series with one outlier that is both above the threshold 95 and
more than two standard deviations from the mean. -/
def anomalySeries6 : List (ℚ × ℚ) := [(0, 10), (1, 10), (2, 10), (3, 10), (4, 10), (5, 100)]

/-- C7 witness: on `anomalySeries6` (mean 25, sample variance 1350) the
outlier 100 produces both the threshold entry (exactly one in the whole list)
and the statistical entry. -/
theorem anomaly_emission_rules_witness :
    (detectValueAnomalies anomalySeries6 "CPU" 95).countP
        (fun a => a.atype == "threshold_exceeded") = 1 ∧
    (⟨"threshold_exceeded", "CPU", 5, 100, "high"⟩ : Anomaly)
        ∈ detectValueAnomalies anomalySeries6 "CPU" 95 ∧
    (⟨"statistical_anomaly", "CPU", 5, 100, "medium"⟩ : Anomaly)
        ∈ detectValueAnomalies anomalySeries6 "CPU" 95 := by
  have hvar : sampleVariance (anomalySeries6.map (·.2)) = 1350 := by
    norm_num [anomalySeries6, sampleVariance, pymean]
  have hmean : pymean (anomalySeries6.map (·.2)) = 25 := by
    norm_num [anomalySeries6, pymean]
  obtain ⟨h1, h2, h3, h4⟩ :=
    anomaly_emission_rules anomalySeries6 "CPU" 95 (by norm_num [anomalySeries6])
  have hboth := h4 (5, 100) (by norm_num [anomalySeries6]) (by norm_num)
    (by rw [hvar]; norm_num) (by rw [hvar, hmean]; norm_num)
  refine ⟨?_, hboth.1, hboth.2⟩
  rw [h1]
  norm_num [anomalySeries6, List.countP_cons]

/-! ### C8 : determinism -/

/-- Erase the report's wall-clock generation timestamp. -/
def stripTimestamp : AnalyzeResult → AnalyzeResult
  | .error m => .error m
  | .report r => .report { r with timestamp := 0 }

/-- C8: two runs of `analyze` over the same sample sequence produce identical
results apart from the wall-clock generation timestamp: every other report
component is a pure function of the input sequence. -/
theorem analyze_deterministic (now1 now2 : ℚ) (data : List Sample) :
    stripTimestamp (analyze now1 data) = stripTimestamp (analyze now2 data) := by
  by_cases h : data = []
  · rw [analyze, analyze, if_pos h, if_pos h]
  · rw [analyze, analyze, if_neg h, if_neg h]
    rfl

end Aitop
